import Mathlib

/-
Verification of the ownership/lifetime layer of libbinder's
`ndk/include_ndk/android/binder_auto_utils.h`.

Shallow embedding: raw handles of the external runtime are modelled as
`Option Nat`, with `none` standing for the C++ null pointer `nullptr`.
Each wrapper operation is a pure function returning the new wrapper state
together with the list of calls it issues into the external runtime
(`AIBinder_incStrong`, `AIBinder_decStrong`, the `Destroy` template
parameter, `AStatus_isOk`, `AIBinder_Weak_promote`), each event recording
the raw argument the call was actually invoked with.
-/

/-- External calls issued by `SpAIBinder` operations: `AIBinder_incStrong`
and `AIBinder_decStrong`, each recording the raw argument passed. -/
inductive BinderEvent where
  | incStrong : Option Nat → BinderEvent
  | decStrong : Option Nat → BinderEvent
  deriving DecidableEq

/-- Effect of one external call on the strong refcount of the non-null
handle `h`. Per the external runtime contract assumed by the source file
(spec section 6), incrementing or decrementing the null handle is a safe
no-op; a call on a different handle does not affect `h`. -/
def BinderEvent.delta (h : Nat) : BinderEvent → Int
  | BinderEvent.incStrong (some x) => if x = h then 1 else 0
  | BinderEvent.incStrong none => 0
  | BinderEvent.decStrong (some x) => if x = h then -1 else 0
  | BinderEvent.decStrong none => 0

/-- Net strong-refcount change of handle `h` over a trace of external calls. -/
def traceDelta (h : Nat) (tr : List BinderEvent) : Int :=
  (tr.map (BinderEvent.delta h)).sum

/-- Number of `AIBinder_incStrong` calls on exactly the handle `h` in a trace. -/
def incCount (h : Nat) (tr : List BinderEvent) : Nat :=
  (tr.filter (fun e => e = BinderEvent.incStrong (some h))).length

/-- Number of `AIBinder_decStrong` calls on exactly the handle `h` in a trace. -/
def decCount (h : Nat) (tr : List BinderEvent) : Nat :=
  (tr.filter (fun e => e = BinderEvent.decStrong (some h))).length

/-- Number of `AIBinder_decStrong` calls with any argument in a trace. -/
def decCallCount (tr : List BinderEvent) : Nat :=
  (tr.filter (fun e => match e with
    | BinderEvent.decStrong _ => true
    | _ => false)).length

/-- `class SpAIBinder`: one strong pointer to an AIBinder object. The single
data member is `AIBinder* mBinder = nullptr;` (source line 104). -/
structure SpAIBinder where
  mBinder : Option Nat
  deriving DecidableEq

/-- `void SpAIBinder::set(AIBinder* binder)` (source lines 78-81):
`if (mBinder != nullptr) AIBinder_decStrong(mBinder); mBinder = binder;`.
Returns the updated object and the external calls issued. -/
def SpAIBinder.set (s : SpAIBinder) (binder : Option Nat) :
    SpAIBinder × List BinderEvent :=
  (⟨binder⟩, if s.mBinder ≠ none then [BinderEvent.decStrong s.mBinder] else [])

/-- `SpAIBinder& SpAIBinder::operator=(const SpAIBinder& other)` (source
lines 69-73): `AIBinder_incStrong(other.mBinder); set(other.mBinder);`.
The increment call is issued unconditionally, before `set` runs. -/
def SpAIBinder.assign (s other : SpAIBinder) : SpAIBinder × List BinderEvent :=
  ((s.set other.mBinder).1, BinderEvent.incStrong other.mBinder :: (s.set other.mBinder).2)

/-- `SpAIBinder::SpAIBinder(const SpAIBinder& other)` (source line 58):
`SpAIBinder(const SpAIBinder& other) { *this = other; }`. The member
`mBinder` is initialized to `nullptr` by its default member initializer
before the body runs, then `operator=` executes. -/
def SpAIBinder.copyCtor (other : SpAIBinder) : SpAIBinder × List BinderEvent :=
  SpAIBinder.assign ⟨none⟩ other

/-- `SpAIBinder::~SpAIBinder()` (source line 63): `{ set(nullptr); }`.
Returns the external calls issued during destruction. -/
def SpAIBinder.dtor (s : SpAIBinder) : List BinderEvent :=
  (s.set none).2

/-- External calls issued by `ScopedA` operations: the `Destroy` template
parameter applied to the recorded raw argument. -/
inductive ScopedEvent where
  | destroy : Option Nat → ScopedEvent
  deriving DecidableEq

/-- `template <typename T, void (*Destroy)(T*)> class ScopedA`: the single
data member is `T* mT;` (source line 164). -/
structure ScopedA where
  mT : Option Nat
  deriving DecidableEq

/-- `void ScopedA::set(T* t)` (source lines 126-129):
`Destroy(mT); mT = t;`. Note `Destroy` is invoked unconditionally, with
whatever `mT` currently holds, including `nullptr`. -/
def ScopedA.set (s : ScopedA) (t : Option Nat) : ScopedA × List ScopedEvent :=
  (⟨t⟩, [ScopedEvent.destroy s.mT])

/-- `ScopedA::~ScopedA()` (source line 121): `{ set(nullptr); }`. -/
def ScopedA.dtor (s : ScopedA) : List ScopedEvent :=
  (s.set none).2

/-- `ScopedA(ScopedA&&) = default;` (source line 161). The implicitly
defined move constructor of a class whose only member is a raw pointer
copies that pointer and leaves the source object's member unchanged.
Returns (destination, source-after-move). -/
def ScopedA.moveCtor (other : ScopedA) : ScopedA × ScopedA :=
  (⟨other.mT⟩, ⟨other.mT⟩)

/-- Run a sequence of `ScopedA::set` calls on a box, collecting the
external calls issued in order. -/
def ScopedA.runSets (s : ScopedA) : List (Option Nat) → ScopedA × List ScopedEvent
  | [] => (s, [])
  | t :: ts =>
    ((((s.set t).1.runSets ts).1), (s.set t).2 ++ ((s.set t).1.runSets ts).2)

/-- Full lifecycle of a box: construct holding `init`
(`explicit ScopedA(T* t = nullptr) : mT(t)`, source line 116), perform the
given `set` calls, then destroy the box. Returns every `Destroy` call
issued over the whole lifecycle, in order. -/
def ScopedA.lifecycle (init : Option Nat) (sets : List (Option Nat)) :
    List ScopedEvent :=
  ((ScopedA.mk init).runSets sets).2 ++ ((ScopedA.mk init).runSets sets).1.dtor

/-- The non-null arguments of the `Destroy` calls in a trace: destroys that
actually release a resource (`Destroy` on null is a no-op per the external
contract, spec section 6). -/
def effectiveDestroys (tr : List ScopedEvent) : List Nat :=
  tr.filterMap (fun e => match e with | ScopedEvent.destroy o => o)

/-- Number of `Destroy` calls on exactly the non-null handle `h` in a trace. -/
def destroyCount (h : Nat) (tr : List ScopedEvent) : Nat :=
  (tr.filter (fun e => e = ScopedEvent.destroy (some h))).length

/-- External call issued by `ScopedAStatus::isOk`: `AStatus_isOk` applied to
the recorded (necessarily non-null) handle. -/
inductive StatusEvent where
  | isOkCall : Nat → StatusEvent
  deriving DecidableEq

/-- `bool ScopedAStatus::isOk()` (source line 195):
`return get() != nullptr && AStatus_isOk(get());`. The C++ `&&` operator
short-circuits: when `get()` is null the external predicate (modelled by
the function argument `ext`) is not invoked. Returns the result together
with the external predicate calls issued. -/
def ScopedAStatus.isOk (ext : Nat → Bool) (s : ScopedA) : Bool × List StatusEvent :=
  match s.mT with
  | none => (false, [])
  | some h => (ext h, [StatusEvent.isOkCall h])

/-- `SpAIBinder ScopedAIBinder_Weak::promote()` (source line 227):
`return SpAIBinder(AIBinder_Weak_promote(get()));`. The external promote
operation is modelled by the function argument `prom`; `get()` does not
modify the box, and the explicit `SpAIBinder` constructor adopts the
returned handle without issuing any refcount call. Returns (result,
box-after-call, `SpAIBinder`-level external calls issued). -/
def ScopedAIBinder_Weak.promote (prom : Option Nat → Option Nat) (s : ScopedA) :
    SpAIBinder × ScopedA × List BinderEvent :=
  (⟨prom s.mT⟩, s, [])

/-- `promote()` called `n` times in a row on the same box: the box state
after the calls. -/
def promoteN (prom : Option Nat → Option Nat) : Nat → ScopedA → ScopedA
  | 0, s => s
  | n + 1, s => promoteN prom n (ScopedAIBinder_Weak.promote prom s).2.1

/-- C1: the claim states that move-constructing from an Owned Resource Box
holding handle `h` leaves the source holding null, and destroying the
moved-from source invokes `Destroy` zero times on `h`. The source's
defaulted move constructor (`ScopedA(ScopedA&&) = default`, line 161)
member-wise-moves the raw pointer, which copies it and leaves the source
unchanged; the moved-from source therefore still holds `h` and its
destructor invokes `Destroy(h)` a second time. Evaluated at a box holding
handle 1: the moved-from source still holds handle 1 and its destruction
issues one more `Destroy` call on handle 1 (a double destroy, since the
destination destroys handle 1 as well). -/
theorem C1_defaulted_move_double_destroy :
    (ScopedA.moveCtor ⟨some 1⟩).2.mT = some 1 ∧
    ScopedA.dtor (ScopedA.moveCtor ⟨some 1⟩).2 = [ScopedEvent.destroy (some 1)] ∧
    destroyCount 1 (ScopedA.dtor (ScopedA.moveCtor ⟨some 1⟩).2) = 1 := by
  decide

/-- C8: default-constructing an Owned Resource Box (null handle) and then
destroying it issues exactly one `Destroy` call, whose argument is null, so
the lifecycle performs zero effective destroy operations: every `Destroy`
call of the lifecycle is passed null, a no-op by the external contract. -/
theorem C8_default_box_zero_effective_destroys :
    ScopedA.lifecycle none [] = [ScopedEvent.destroy none] ∧
    effectiveDestroys (ScopedA.lifecycle none []) = [] := by
  decide

/-- C9: copy construction of an `SpAIBinder` never issues a strong-refcount
decrement: the destination's `mBinder` is null-initialized before
`operator=` runs, so the guarded decrement inside `set` is not taken, and
afterwards the new instance holds the same handle as the source. -/
theorem C9_copy_ctor_never_decrements (other : SpAIBinder) :
    (SpAIBinder.copyCtor other).1.mBinder = other.mBinder ∧
    decCallCount (SpAIBinder.copyCtor other).2 = 0 := by
  simp [SpAIBinder.copyCtor, SpAIBinder.assign, SpAIBinder.set, decCallCount]

/-- C7: `promote()` returns an `SpAIBinder` holding exactly the handle the
external `AIBinder_Weak_promote` returned for the held weak token (null
when the referent is gone, non-null when alive, per the external
operation's result), and issues no strong-refcount call of its own: the
trace of `SpAIBinder`-level external calls is empty. -/
theorem C7_promote_wraps_external_result (prom : Option Nat → Option Nat)
    (s : ScopedA) :
    (ScopedAIBinder_Weak.promote prom s).1.mBinder = prom s.mT ∧
    (ScopedAIBinder_Weak.promote prom s).2.2 = [] := by
  simp [ScopedAIBinder_Weak.promote]

/-- C10: `promote()` does not consume, destroy or replace the held weak
token: after any number `n` of promote calls the box is unchanged, and its
destruction still issues exactly one `Destroy` call, on the original weak
token. -/
theorem C10_promote_preserves_box (prom : Option Nat → Option Nat)
    (s : ScopedA) (n : Nat) :
    promoteN prom n s = s ∧
    ScopedA.dtor (promoteN prom n s) = [ScopedEvent.destroy s.mT] := by
  have h : promoteN prom n s = s := by
    induction n with
    | zero => rfl
    | succ k ih => simpa [promoteN, ScopedAIBinder_Weak.promote] using ih
  exact ⟨h, by simp [h, ScopedA.dtor, ScopedA.set]⟩

/-- C6: `isOk()` returns true iff the held handle is non-null and the
external `AStatus_isOk` predicate returns true on it; when the handle is
null it returns false and issues no call to the external predicate. -/
theorem C6_isOk_iff_nonnull_and_ok (ext : Nat → Bool) (s : ScopedA) :
    ((ScopedAStatus.isOk ext s).1 = true ↔
      ∃ h, s.mT = some h ∧ ext h = true) ∧
    (s.mT = none →
      (ScopedAStatus.isOk ext s).1 = false ∧ (ScopedAStatus.isOk ext s).2 = []) := by
  cases hs : s.mT with
  | none => simp [ScopedAStatus.isOk, hs]
  | some h => simp [ScopedAStatus.isOk, hs]

/-- C6 witness: on a default-constructed (null-handled) status wrapper, with
an external predicate that always answers true, `isOk` returns false and the
predicate is never invoked. -/
theorem C6_isOk_iff_nonnull_and_ok_witness :
    (ScopedAStatus.isOk (fun _ => true) ⟨none⟩).1 = false ∧
    (ScopedAStatus.isOk (fun _ => true) ⟨none⟩).2 = [] :=
  (C6_isOk_iff_nonnull_and_ok (fun _ => true) ⟨none⟩).2 rfl

/-- C2: assigning an `SpAIBinder` holding handle `H` another `SpAIBinder`
holding the same handle `H` (self-assignment included, taking `t = s`)
issues the increment of `H` strictly before the decrement of the previously
held handle: the trace is exactly increment-then-decrement of `H`, the net
strong-refcount delta of the assignment is zero, the instance still holds
`H` afterwards, and over every trace segment from the start the running
delta never goes negative, so the count never drops below the units
acquired beforehand (no double-decrement). -/
theorem C2_same_handle_assign_no_double_dec (H : Nat) (s t : SpAIBinder)
    (hs : s.mBinder = some H) (ht : t.mBinder = some H) :
    (s.assign t).1.mBinder = some H ∧
    (s.assign t).2 =
      [BinderEvent.incStrong (some H), BinderEvent.decStrong (some H)] ∧
    traceDelta H (s.assign t).2 = 0 ∧
    ∀ n, 0 ≤ traceDelta H ((s.assign t).2.take n) := by
  have htr : (s.assign t).2 =
      [BinderEvent.incStrong (some H), BinderEvent.decStrong (some H)] := by
    simp [SpAIBinder.assign, SpAIBinder.set, hs, ht]
  refine ⟨by simp [SpAIBinder.assign, SpAIBinder.set, ht], htr, ?_, ?_⟩
  · simp [htr, traceDelta, BinderEvent.delta]
  · intro n
    match n with
    | 0 => simp [traceDelta]
    | 1 => simp [htr, traceDelta, BinderEvent.delta]
    | (m + 2) => simp [htr, traceDelta, BinderEvent.delta]

/-- C2 witness: self-assignment of an `SpAIBinder` holding handle 7. -/
theorem C2_same_handle_assign_no_double_dec_witness :
    (SpAIBinder.assign ⟨some 7⟩ ⟨some 7⟩).1.mBinder = some 7 ∧
    traceDelta 7 (SpAIBinder.assign ⟨some 7⟩ ⟨some 7⟩).2 = 0 ∧
    0 ≤ traceDelta 7 ((SpAIBinder.assign ⟨some 7⟩ ⟨some 7⟩).2.take 1) := by
  have h := C2_same_handle_assign_no_double_dec 7 ⟨some 7⟩ ⟨some 7⟩ rfl rfl
  exact ⟨h.1, h.2.2.1, h.2.2.2 1⟩

/-- C5: copy-constructing `b` from an `SpAIBinder` `a` holding non-null
handle `H` and then destroying both issues exactly one increment of `H`
(at copy time) and exactly two decrements of `H` (one per instance, at its
destruction), so with the one unit `a` originally owned the net refcount
delta over the whole lifecycle is 0. -/
theorem C5_copy_lifecycle_balanced (H : Nat) :
    (SpAIBinder.copyCtor ⟨some H⟩).2 = [BinderEvent.incStrong (some H)] ∧
    SpAIBinder.dtor ⟨some H⟩ = [BinderEvent.decStrong (some H)] ∧
    SpAIBinder.dtor (SpAIBinder.copyCtor ⟨some H⟩).1 =
      [BinderEvent.decStrong (some H)] ∧
    incCount H ((SpAIBinder.copyCtor ⟨some H⟩).2 ++ SpAIBinder.dtor ⟨some H⟩ ++
      SpAIBinder.dtor (SpAIBinder.copyCtor ⟨some H⟩).1) = 1 ∧
    decCount H ((SpAIBinder.copyCtor ⟨some H⟩).2 ++ SpAIBinder.dtor ⟨some H⟩ ++
      SpAIBinder.dtor (SpAIBinder.copyCtor ⟨some H⟩).1) = 2 ∧
    1 + traceDelta H ((SpAIBinder.copyCtor ⟨some H⟩).2 ++ SpAIBinder.dtor ⟨some H⟩ ++
      SpAIBinder.dtor (SpAIBinder.copyCtor ⟨some H⟩).1) = 0 := by
  simp [SpAIBinder.copyCtor, SpAIBinder.assign, SpAIBinder.set, SpAIBinder.dtor,
    incCount, decCount, traceDelta, BinderEvent.delta]

/-- C3 counterexample: the claim states the increment call is guarded out or
never issued with a null argument. Copy-constructing from an `SpAIBinder`
holding the null handle, and copy-assigning such an instance to an
`SpAIBinder` holding handle 5, both issue the external `AIBinder_incStrong`
call with the null argument. -/
theorem C3_cex_inc_issued_with_null :
    BinderEvent.incStrong none ∈ (SpAIBinder.copyCtor ⟨none⟩).2 ∧
    BinderEvent.incStrong none ∈ (SpAIBinder.assign ⟨some 5⟩ ⟨none⟩).2 := by
  decide

/-- C3 amended: copy-constructing from, or copy-assigning, an `SpAIBinder`
whose handle is null issues the external strong-refcount increment call
unconditionally, passing the null handle as its argument; by the external
runtime contract (spec section 6, as modelled by `BinderEvent.delta`) that
call is a safe no-op, so no handle's strong refcount is changed by the
copy construction, and the increment call of an assignment changes no
handle's strong refcount either. -/
theorem C3_null_source_inc_is_noop (other : SpAIBinder)
    (h0 : other.mBinder = none) :
    (SpAIBinder.copyCtor other).2 = [BinderEvent.incStrong none] ∧
    (∀ h, traceDelta h (SpAIBinder.copyCtor other).2 = 0) ∧
    (∀ s : SpAIBinder, (s.assign other).2.head? = some (BinderEvent.incStrong none)) ∧
    (∀ h, BinderEvent.delta h (BinderEvent.incStrong none) = 0) := by
  refine ⟨?_, ?_, ?_, ?_⟩
  · simp [SpAIBinder.copyCtor, SpAIBinder.assign, SpAIBinder.set, h0]
  · intro h
    simp [SpAIBinder.copyCtor, SpAIBinder.assign, SpAIBinder.set, h0,
      traceDelta, BinderEvent.delta]
  · intro s
    simp [SpAIBinder.assign, h0]
  · intro h
    simp [BinderEvent.delta]

/-- C3 witness: copy construction from a null-handled source, evaluated for
handle 0. -/
theorem C3_null_source_inc_is_noop_witness :
    (SpAIBinder.copyCtor ⟨none⟩).2 = [BinderEvent.incStrong none] ∧
    traceDelta 0 (SpAIBinder.copyCtor ⟨none⟩).2 = 0 :=
  ⟨(C3_null_source_inc_is_noop ⟨none⟩ rfl).1,
   (C3_null_source_inc_is_noop ⟨none⟩ rfl).2.1 0⟩

/-- Helper: the `Destroy` calls of a full box lifecycle are, in order,
exactly the values ever stored in the box — the initial handle and each
`set` argument — each destroyed at the moment it is replaced by the next
`set` call, the last one at box destruction. -/
theorem lifecycle_eq_map_destroy (init : Option Nat) (sets : List (Option Nat)) :
    ScopedA.lifecycle init sets = (init :: sets).map ScopedEvent.destroy := by
  induction sets generalizing init with
  | nil => rfl
  | cons t ts ih =>
    have h1 : ScopedA.lifecycle init (t :: ts)
        = ScopedEvent.destroy init :: ScopedA.lifecycle t ts := by
      simp [ScopedA.lifecycle, ScopedA.runSets, ScopedA.set, ScopedA.dtor]
    rw [h1, ih]
    simp

/-- Helper: counting destroys of `h` in a mapped trace is counting
occurrences of `some h` among the stored values. -/
theorem destroyCount_map (h : Nat) (L : List (Option Nat)) :
    destroyCount h (L.map ScopedEvent.destroy)
      = (L.filter (fun o => o = some h)).length := by
  induction L with
  | nil => rfl
  | cons a L ih =>
    by_cases ha : a = some h
    · simp [destroyCount, ha] at ih ⊢
      omega
    · simp [destroyCount, List.filter, ha] at ih ⊢
      simpa [ha] using ih

/-- Helper: a value absent from the non-null stored values is never matched. -/
theorem filter_len_zero_of_not_mem (h : Nat) (L : List (Option Nat))
    (hn : h ∉ L.filterMap id) :
    (L.filter (fun o => o = some h)).length = 0 := by
  induction L with
  | nil => rfl
  | cons a L ih =>
    cases a with
    | none => simpa using ih (by simpa using hn)
    | some b =>
      have hb : b ≠ h ∧ h ∉ L.filterMap id := by
        constructor
        · intro hbh
          exact hn (by simp [hbh])
        · intro hmem
          exact hn (by simp [hmem])
      simp [List.filter, hb.1, Ne.symm hb.1, ih hb.2]

/-- Helper: when the non-null stored values have no duplicates, each one is
matched exactly once, and an absent value zero times. -/
theorem filter_len_of_nodup (L : List (Option Nat))
    (hnd : (L.filterMap id).Nodup) (h : Nat) :
    (L.filter (fun o => o = some h)).length
      = if h ∈ L.filterMap id then 1 else 0 := by
  induction L with
  | nil => simp
  | cons a L ih =>
    cases a with
    | none =>
      have hnd2 : (L.filterMap id).Nodup := by simpa using hnd
      simpa using ih hnd2
    | some b =>
      have hfm : ((some b :: L).filterMap id) = b :: L.filterMap id := by simp
      rw [hfm, List.nodup_cons] at hnd
      by_cases hbh : b = h
      · subst hbh
        have hz := filter_len_zero_of_not_mem b L hnd.1
        simp [List.filter, hz]
      · simp [List.filter, hbh, Ne.symm hbh, ih hnd.2]

/-- C4: over any lifecycle of an Owned Resource Box — construction holding
`init`, a finite sequence of `set` calls, then destruction — assuming each
non-null handle value is stored only once, `Destroy` is invoked exactly
once on each distinct non-null handle ever stored (and never on a non-null
handle that was not stored); by `lifecycle_eq_map_destroy` each such call
happens at the moment that handle is replaced by a `set` call or at box
destruction. -/
theorem C4_destroy_once_per_stored_handle (init : Option Nat)
    (sets : List (Option Nat))
    (hnd : (((init :: sets)).filterMap id).Nodup) (h : Nat) :
    destroyCount h (ScopedA.lifecycle init sets)
      = if h ∈ (init :: sets).filterMap id then 1 else 0 := by
  rw [lifecycle_eq_map_destroy, destroyCount_map]
  exact filter_len_of_nodup (init :: sets) hnd h

/-- C4 witness: box constructed holding handle 1, then set to handle 2, then
set to null, then destroyed: handle 2 is destroyed exactly once. -/
theorem C4_destroy_once_per_stored_handle_witness :
    destroyCount 2 (ScopedA.lifecycle (some 1) [some 2, none]) = 1 := by
  have h := C4_destroy_once_per_stored_handle (some 1) [some 2, none] (by decide) 2
  simpa using h
